import Mathlib

/-!
Verification of the route-protection / session-consistency logic of the
open-workouts repository.

The development shallowly embeds the authentication middleware of
`apps/web-app/src/middleware.ts`, the secondary middleware of `apps/web`,
the server actions (`loginAction`, `registerAction`, `resetPasswordAction`,
`signOutAction`), the sign-out paths of the client auth service and the
`use-auth` hook, the zod validation schemas, and the two session-expiry
helpers, and proves the stated route-protection properties about them.

Conventions of the embedding:
* JavaScript strings are Lean `String`s; `String.prototype.startsWith` is
  modelled byte-for-byte by `jsStartsWith` (a prefix check on the character
  list), and `Array.prototype.includes` by an equality scan.
* Redirect targets are represented by their path-plus-query part; the code
  always builds them against the request origin (`new URL(path, request.url)`),
  so the origin is constant and elided.
* `URLSearchParams.set` percent-encodes its value with the
  application/x-www-form-urlencoded serializer; `formUrlEncode` implements
  that serializer over the UTF-8 bytes of the value.
* The outcome of `supabase.auth.getUser()` inside the middleware is one of:
  a user with no error, a null user with no error, a null user with an error
  (the API never returns both a user and an error), or a thrown exception
  (which lands in the middleware's catch block).
-/

namespace OpenWorkouts

/-- Prefix test on character lists: model of `String.prototype.startsWith`. -/
def listIsPrefixOf : List Char → List Char → Bool
  | [], _ => true
  | _ :: _, [] => false
  | a :: as, b :: bs => (a == b) && listIsPrefixOf as bs

/-- Model of JavaScript `s.startsWith(pre)`. -/
def jsStartsWith (s pre : String) : Bool :=
  listIsPrefixOf pre.data s.data

/-- JavaScript truthiness of a string: every string except `""` is truthy. -/
def jsTruthyStr (s : String) : Bool :=
  !(s.data.isEmpty)

/-- UTF-8 byte sequence of a character (as natural numbers below 256). -/
def utf8Bytes (c : Char) : List Nat :=
  let n := c.toNat
  if n < 0x80 then [n]
  else if n < 0x800 then [0xC0 + n / 0x40, 0x80 + n % 0x40]
  else if n < 0x10000 then
    [0xE0 + n / 0x1000, 0x80 + (n / 0x40) % 0x40, 0x80 + n % 0x40]
  else
    [0xF0 + n / 0x40000, 0x80 + (n / 0x1000) % 0x40, 0x80 + (n / 0x40) % 0x40,
      0x80 + n % 0x40]

/-- Uppercase hexadecimal digit for a value below 16. -/
def hexDigitChar (n : Nat) : Char :=
  if n < 10 then Char.ofNat (48 + n) else Char.ofNat (55 + n)

/-- Bytes the urlencoded serializer leaves unescaped:
ASCII alphanumerics and `*`, `-`, `.`, `_`. -/
def isUrlencodedSafeByte (b : Nat) : Bool :=
  (48 ≤ b && b ≤ 57) || (65 ≤ b && b ≤ 90) || (97 ≤ b && b ≤ 122) ||
    b == 42 || b == 45 || b == 46 || b == 95

/-- One byte of urlencoded output: kept, `+` for space, or `%XX`. -/
def encodeFormByte (b : Nat) : String :=
  if isUrlencodedSafeByte b then String.singleton (Char.ofNat b)
  else if b == 32 then "+"
  else String.singleton '%' ++ String.singleton (hexDigitChar (b / 16)) ++
    String.singleton (hexDigitChar (b % 16))

/-- The application/x-www-form-urlencoded serializer used by
`URLSearchParams.set` when the middleware writes the `redirectTo` query
parameter. -/
def formUrlEncode (s : String) : String :=
  String.join ((s.data.flatMap utf8Bytes).map encodeFormByte)

/-! ## Route classification (`apps/web-app/src/middleware.ts`, lines 72-86) -/

/-- The prefixes of protected routes checked by the middleware. -/
def protectedRouteList : List String :=
  ["/dashboard", "/profile", "/settings", "/workouts"]

/-- The exact public paths checked by the middleware. -/
def publicRouteList : List String :=
  ["/", "/about", "/contact", "/privacy", "/terms"]

/-- `pathname.startsWith('/auth/')`. -/
def isAuthRoute (p : String) : Bool :=
  jsStartsWith p "/auth/"

/-- `[...].some(route => pathname.startsWith(route))`. -/
def isProtectedRoute (p : String) : Bool :=
  protectedRouteList.any (fun route => jsStartsWith p route)

/-- `[...].includes(pathname)`. -/
def isPublicRoute (p : String) : Bool :=
  publicRouteList.any (fun route => p == route)

/-! ## The request gate (`apps/web-app/src/middleware.ts`, `middleware`) -/

/-- Outcome of `supabase.auth.getUser()` as observed by the middleware. -/
inductive ReaderOutcome where
  /-- A user object was returned and `error` is null. -/
  | user
  /-- `user` is null and `error` is null (no credentials present). -/
  | noUser
  /-- `user` is null and `error` is non-null (the provider call failed). -/
  | transientErr
  /-- The call threw; control transfers to the middleware's catch block. -/
  | throws
deriving DecidableEq

/-- A middleware response: pass the request through or redirect. -/
inductive Response where
  /-- `NextResponse.next()`: the request continues to the page. -/
  | next
  /-- `NextResponse.redirect(url)`, identified by its path-plus-query. -/
  | redirect (url : String)
deriving DecidableEq

/-- Truthiness of `user` for a (non-throwing) reader outcome. -/
def readerUser : ReaderOutcome → Bool
  | ReaderOutcome.user => true
  | _ => false

/-- Truthiness of `error` for a (non-throwing) reader outcome. -/
def readerError : ReaderOutcome → Bool
  | ReaderOutcome.transientErr => true
  | _ => false

/-- A transient reader outcome: the provider call failed or threw. -/
def readerTransient : ReaderOutcome → Bool
  | ReaderOutcome.transientErr => true
  | ReaderOutcome.throws => true
  | _ => false

/-- The login redirect URL built for protected-route denials:
`new URL('/auth/login', request.url)` plus
`searchParams.set('redirectTo', pathname)`. -/
def loginRedirectUrl (p : String) : String :=
  "/auth/login?redirectTo=" ++ formUrlEncode p

/-- The authentication middleware of `apps/web-app/src/middleware.ts`.
The whole body runs inside `try`; a thrown reader call lands in the catch
block, which redirects to the bare `/auth/login` for protected paths and
passes every other path through. -/
def middleware (pathname : String) (reader : ReaderOutcome) : Response :=
  match reader with
  | ReaderOutcome.throws =>
    if isProtectedRoute pathname then Response.redirect "/auth/login"
    else Response.next
  | r =>
    if isAuthRoute pathname then
      if readerUser r then Response.redirect "/dashboard" else Response.next
    else if isProtectedRoute pathname then
      if !(readerUser r) || readerError r then
        Response.redirect (loginRedirectUrl pathname)
      else Response.next
    else if isPublicRoute pathname then Response.next
    else Response.next

/-! ## Redirect-destination validation (`middlewareUtils.getRedirectDestination`) -/

namespace middlewareUtils

/-- `middlewareUtils.getRedirectDestination` of `apps/web-app/src/middleware.ts`,
taken over the outcome of parsing its URL argument: `none` models `new URL(url)`
throwing (the catch returns the default), `some rt` models a parsed URL whose
`searchParams.get('redirectTo')` is `rt` (`none` when the parameter is absent,
which is falsy like the empty string). The source guard is
`redirectTo && redirectTo.startsWith('/') && !redirectTo.startsWith('//')`. -/
def getRedirectDestination (parsed : Option (Option String)) : String :=
  match parsed with
  | none => "/dashboard"
  | some none => "/dashboard"
  | some (some rt) =>
    if jsTruthyStr rt && (jsStartsWith rt "/" && !(jsStartsWith rt "//")) then rt
    else "/dashboard"

/-- `middlewareUtils.isSessionExpired` takes any value for `session`; `none`
at the outer option models a null/undefined session (`session?.`). -/
structure SessionShape where
  /-- The `expires_at` field, epoch seconds; `none` models undefined. -/
  expires_at : Option Nat
deriving DecidableEq

/-- The 5-minute buffer, in milliseconds, both expiry helpers subtract. -/
def expirationBufferMs : Int := 5 * 60 * 1000

/-- `middlewareUtils.isSessionExpired` of `apps/web-app/src/middleware.ts`:
`if (!session?.expires_at) return true` (so a missing session, a missing
`expires_at`, and the falsy value `0` all report expired), then
`Date.now() >= session.expires_at * 1000 - buffer`. `now` is
`Date.now()` in milliseconds. -/
def isSessionExpired (session : Option SessionShape) (now : Int) : Bool :=
  match session with
  | none => true
  | some s =>
    match s.expires_at with
    | none => true
    | some e =>
      if e = 0 then true
      else decide ((e : Int) * 1000 - expirationBufferMs ≤ now)

end middlewareUtils

namespace SupabaseSessionManager

/-- `SupabaseSessionManager.isSessionExpired` of the client auth services
module: `if (!session.expires_at) return false` (missing or `0` reports NOT
expired), then the same buffered comparison as the middleware helper. -/
def isSessionExpired (s : middlewareUtils.SessionShape) (now : Int) : Bool :=
  match s.expires_at with
  | none => false
  | some e =>
    if e = 0 then false
    else decide ((e : Int) * 1000 - middlewareUtils.expirationBufferMs ≤ now)

end SupabaseSessionManager

/-! ## Zod validation schemas (`lib/validations/auth.ts`) -/

/-- Character allowed anywhere in the local part of zod's email regex:
`[A-Z0-9_'+\-.]` (case-insensitive); code 39 is the apostrophe. -/
def zodEmailLocalChar (c : Char) : Bool :=
  c.isAlpha || c.isDigit || c == Char.ofNat 39 || c == '+' || c == '-' ||
    c == '.' || c == '_'

/-- Character allowed as the last local-part character: `[A-Z0-9_+-]`. -/
def zodEmailLocalEndChar (c : Char) : Bool :=
  c.isAlpha || c.isDigit || c == '+' || c == '-' || c == '_'

/-- ASCII alphanumeric, the `[A-Z0-9]` class of the regex. -/
def zodAlnum (c : Char) : Bool :=
  c.isAlpha || c.isDigit

/-- Whether the character list contains two consecutive dots
(the `(?!.*\.\.)` lookahead). -/
def hasDoubleDot : List Char → Bool
  | [] => false
  | [_] => false
  | a :: b :: rest => (a == '.' && b == '.') || hasDoubleDot (b :: rest)

/-- Split a character list on a separator character; like
`String.prototype.split`, `n` separators yield `n + 1` (possibly empty)
fields. -/
def splitOnChar (sep : Char) : List Char → List (List Char)
  | [] => [[]]
  | c :: cs =>
    match splitOnChar sep cs with
    | [] => [[c]]
    | r :: rs => if c == sep then [] :: r :: rs else (c :: r) :: rs

/-- A non-final domain label: `[A-Z0-9][A-Z0-9-]*`. -/
def zodEmailDomainLabelOk (label : List Char) : Bool :=
  match label with
  | [] => false
  | c :: rest => zodAlnum c && rest.all (fun d => zodAlnum d || d == '-')

/-- The final domain label (TLD): `[A-Z]{2,}`. -/
def zodEmailTldOk (label : List Char) : Bool :=
  decide (2 ≤ label.length) && label.all Char.isAlpha

/-- Zod's `z.string().email()` validator, the regex
`/^(?!\.)(?!.*\.\.)([A-Z0-9_'+\-.]*)[A-Z0-9_+-]@([A-Z0-9][A-Z0-9-]*\.)+[A-Z]{2,}$/i`
translated structurally: no leading dot, no double dot, exactly one `@`,
a non-empty local part of allowed characters whose last character is in the
stricter class, and a dotted domain of valid labels ending in an alphabetic
TLD of length at least two. -/
def zodEmailCheck (s : String) : Bool :=
  let cs := s.data
  (match cs with
   | [] => true
   | c :: _ => !(c == '.')) &&
  !(hasDoubleDot cs) &&
  (match splitOnChar '@' cs with
   | [localPart, domain] =>
     (match localPart.getLast? with
      | none => false
      | some lastc => zodEmailLocalEndChar lastc &&
          localPart.all zodEmailLocalChar) &&
     (let labels := splitOnChar '.' domain
      decide (2 ≤ labels.length) &&
        labels.dropLast.all zodEmailDomainLabelOk &&
        (match labels.getLast? with
         | none => false
         | some tld => zodEmailTldOk tld))
   | _ => false)

/-- The `emailSchema` chain `z.string().min(1).email()` (the `toLowerCase`
and `trim` steps transform the parsed value and do not affect validity). -/
def emailSchemaCheck (s : String) : Bool :=
  decide (1 ≤ s.length) && zodEmailCheck s

/-- The `passwordSchema` chain `z.string().min(6).max(128)`. -/
def passwordSchemaCheck (p : String) : Bool :=
  decide (6 ≤ p.length) && decide (p.length ≤ 128)

/-- `loginSchema`: valid email plus `z.string().min(1)` password. -/
def loginSchemaValid (email password : String) : Bool :=
  emailSchemaCheck email && decide (1 ≤ password.length)

/-- Modelled from the spec: `registerSchema` of the `apps/web` validations
module, which is not under `src/` (only its importers are). The handler
"validates input shape (fails with ValidationError before calling the
provider)" on the flat email/password input; the shape is a valid email plus
a password satisfying the length policy of the in-repo `passwordSchema`. -/
def registerSchemaValid (email password : String) : Bool :=
  emailSchemaCheck email && passwordSchemaCheck password

/-- Modelled from the spec: `resetPasswordSchema` of the `apps/web`
validations module, which is not under `src/` (only its importers are). The
handler validates the flat password/confirm-password input shape: a password
satisfying the length policy and a matching non-empty confirmation, as in the
in-repo `newPasswordSchema`. -/
def resetPasswordSchemaValid (password confirmPassword : String) : Bool :=
  passwordSchemaCheck password && decide (1 ≤ confirmPassword.length) &&
    password == confirmPassword

/-! ## Server actions and sign-out (`apps/web`), client sign-out (`web-app`) -/

/-- Outcome of the single provider operation an action handler performs:
success, a returned provider error with its message, or a thrown exception
whose message is `msg`. -/
inductive ProviderCall where
  /-- The provider call succeeded. -/
  | ok
  /-- The provider call returned `{ error }` with message `msg`. -/
  | err (msg : String)
  /-- The provider call threw an `Error` with message `msg`. -/
  | throws (msg : String)
deriving DecidableEq

/-- What a server action returns to its caller: an `{ error }` payload or a
`redirect(path)`. -/
inductive ActionResult where
  /-- `return { error: msg }`. -/
  | errorMsg (msg : String)
  /-- `redirect(path)` issued after the try/catch. -/
  | redirect (path : String)
deriving DecidableEq

namespace Web

/-- `loginAction` of `apps/web/src/app/auth/login/actions.ts`: validate with
`loginSchema.safeParse`, return `{ error: 'Invalid form data' }` on failure,
call `authService.signIn` (catching a throw as `'Authentication failed'`),
surface `authResult.error.message`, and on success `redirect('/dashboard')`. -/
def loginAction (email password : String) (provider : ProviderCall) : ActionResult :=
  if !(loginSchemaValid email password) then ActionResult.errorMsg "Invalid form data"
  else
    match provider with
    | ProviderCall.throws _ => ActionResult.errorMsg "Authentication failed"
    | ProviderCall.err m => ActionResult.errorMsg m
    | ProviderCall.ok => ActionResult.redirect "/dashboard"

/-- `registerAction` of `apps/web/src/app/auth/register` actions: validate
with `registerSchema.safeParse`, return `{ error: 'Invalid form data' }` on
failure, call `authService.signUp` (catching a throw as
`'Registration failed'`), surface `authResult.error.message`, and on success
`redirect('/auth/check-email')`. -/
def registerAction (email password : String) (provider : ProviderCall) : ActionResult :=
  if !(registerSchemaValid email password) then ActionResult.errorMsg "Invalid form data"
  else
    match provider with
    | ProviderCall.throws _ => ActionResult.errorMsg "Registration failed"
    | ProviderCall.err m => ActionResult.errorMsg m
    | ProviderCall.ok => ActionResult.redirect "/auth/check-email"

/-- `resetPasswordAction` of `apps/web/src/app/auth/reset-password/actions.ts`:
validate with `resetPasswordSchema.safeParse`, return
`{ error: 'Invalid password data' }` on failure, call
`authService.updatePassword` (catching a throw as `'Password update failed'`),
surface `authResult.error.message`, and on success redirect to the login page
with a success message. -/
def resetPasswordAction (password confirmPassword : String)
    (provider : ProviderCall) : ActionResult :=
  if !(resetPasswordSchemaValid password confirmPassword) then
    ActionResult.errorMsg "Invalid password data"
  else
    match provider with
    | ProviderCall.throws _ => ActionResult.errorMsg "Password update failed"
    | ProviderCall.err m => ActionResult.errorMsg m
    | ProviderCall.ok => ActionResult.redirect "/auth/login?message=Password updated successfully"

/-- The `AuthResult<void>` of the server-side
`SupabaseAuthService.signOut` (`apps/web`): a returned provider error keeps
its message, a thrown `Error` is caught and its message returned as the
error, success yields `{ data: undefined }`. -/
inductive AuthResultV where
  /-- `{ data: undefined }`. -/
  | ok
  /-- `{ error: { message: msg } }`. -/
  | err (msg : String)
deriving DecidableEq

/-- Server-side `SupabaseAuthService.signOut` of
`apps/web/src/lib/auth/services/SupabaseAuthService.ts`. -/
def authServiceSignOut (provider : ProviderCall) : AuthResultV :=
  match provider with
  | ProviderCall.ok => AuthResultV.ok
  | ProviderCall.err m => AuthResultV.err m
  | ProviderCall.throws m => AuthResultV.err m

/-- `signOutAction` of `apps/web/src/app/dashboard/page.tsx`: calls the
service, returns `{ error: authResult.error.message }` when the service
reports an error (the `SignOutButton` shows it with `toast.error`), and
redirects to `/` on success. -/
def signOutAction (provider : ProviderCall) : ActionResult :=
  match authServiceSignOut provider with
  | AuthResultV.err m => ActionResult.errorMsg m
  | AuthResultV.ok => ActionResult.redirect "/"

/-- The secondary middleware (`apps/web`): after `updateSession` produces a
response, a request for `/auth/login`, `/auth/register` or
`/auth/forgot-password` that carries a session cookie is redirected to
`/dashboard`; every other request gets the `updateSession` response. The
internals of `updateSession` are not under `src/`, so its response is a
parameter. -/
def middleware (pathname : String) (hasSessionCookie : Bool)
    (updateSessionResponse : Response) : Response :=
  if (pathname == "/auth/login" || pathname == "/auth/register" ||
      pathname == "/auth/forgot-password") && hasSessionCookie then
    Response.redirect "/dashboard"
  else updateSessionResponse

end Web

namespace WebApp

/-- The error surfaced to the caller by the client-side
`SupabaseAuthService.signOut` of the web-app client services module: the
function catches both a returned provider error and a thrown exception,
logs them with `console.error`, and returns `void` — nothing is ever
surfaced. -/
def clientSignOutError (provider : ProviderCall) : Option String :=
  match provider with
  | ProviderCall.ok => none
  | ProviderCall.err _ => none
  | ProviderCall.throws _ => none

/-- Local auth state held by the `use-auth` hook: whether a user object and
a session object are set. -/
structure AuthState where
  /-- The hook's `user` state is non-null. -/
  user : Bool
  /-- The hook's `session` state is non-null. -/
  session : Bool
deriving DecidableEq

/-- `signOut` of `apps/web-app/src/hooks/use-auth.tsx`: both the try branch
and the catch branch clear `user` and `session` and `router.push('/')`, so
the resulting state and navigation target are the same for every provider
outcome. Returns the new state and the navigation target. -/
def useAuthSignOut (st : AuthState) (provider : ProviderCall) : AuthState × String :=
  match st, provider with
  | _, ProviderCall.throws _ => (⟨false, false⟩, "/")
  | _, _ => (⟨false, false⟩, "/")

end WebApp

/-! ## Helper lemmas about the route classification -/

/-- A prefix check that succeeds forces the first two characters of the
target. -/
theorem listIsPrefixOf_cons2 {a b : Char} {t l : List Char}
    (h : listIsPrefixOf (a :: b :: t) l = true) : ∃ m, l = a :: b :: m := by
  cases l with
  | nil => simp [listIsPrefixOf] at h
  | cons x l2 =>
    cases l2 with
    | nil => simp [listIsPrefixOf] at h
    | cons y m =>
      simp [listIsPrefixOf] at h
      exact ⟨m, by rw [← h.1, ← h.2.1]⟩

/-- Two slash-led prefixes that disagree at their second character cannot
both start the same path. -/
theorem slash_prefix_clash {l : List Char} {c d : Char} {t1 t2 : List Char}
    (h1 : listIsPrefixOf ('/' :: c :: t1) l = true)
    (h2 : listIsPrefixOf ('/' :: d :: t2) l = true)
    (hne : ¬ c = d) : False := by
  obtain ⟨m1, e1⟩ := listIsPrefixOf_cons2 h1
  obtain ⟨m2, e2⟩ := listIsPrefixOf_cons2 h2
  rw [e1] at e2
  injection e2 with e3 e4
  injection e4 with e5 e6
  exact hne e5

/-- A protected path is never an auth route: the second characters of
`/auth/` and of each protected prefix differ. -/
theorem protected_not_auth (p : String) (h : isProtectedRoute p = true) :
    isAuthRoute p = false := by
  by_contra hne
  simp only [Bool.not_eq_false] at hne
  simp only [isAuthRoute, jsStartsWith] at hne
  simp only [isProtectedRoute, protectedRouteList, List.any_cons, List.any_nil,
    Bool.or_eq_true, Bool.or_false, jsStartsWith] at h
  rcases h with h | h | h | h
  · exact slash_prefix_clash hne h (by decide)
  · exact slash_prefix_clash hne h (by decide)
  · exact slash_prefix_clash hne h (by decide)
  · exact slash_prefix_clash hne h (by decide)

/-- An auth route is never a protected path. -/
theorem auth_not_protected (p : String) (h : isAuthRoute p = true) :
    isProtectedRoute p = false := by
  cases hP : isProtectedRoute p with
  | false => rfl
  | true => rw [protected_not_auth p hP] at h; exact absurd h (by decide)

/-- A public path is one of the five listed paths. -/
theorem public_mem (p : String) (h : isPublicRoute p = true) :
    p = "/" ∨ p = "/about" ∨ p = "/contact" ∨ p = "/privacy" ∨ p = "/terms" := by
  simp only [isPublicRoute, publicRouteList, List.any_cons, List.any_nil,
    Bool.or_eq_true, Bool.or_false, beq_iff_eq] at h
  exact h

/-- A public path is never an auth route. -/
theorem public_not_auth (p : String) (h : isPublicRoute p = true) :
    isAuthRoute p = false := by
  rcases public_mem p h with h1 | h1 | h1 | h1 | h1 <;> subst h1 <;> decide

/-- A public path is never a protected path. -/
theorem public_not_protected (p : String) (h : isPublicRoute p = true) :
    isProtectedRoute p = false := by
  rcases public_mem p h with h1 | h1 | h1 | h1 | h1 <;> subst h1 <;> decide

/-- A string starting with `/` is truthy. -/
theorem truthy_of_slash {rt : String} (h : jsStartsWith rt "/" = true) :
    jsTruthyStr rt = true := by
  obtain ⟨cs⟩ := rt
  cases cs with
  | nil =>
    simp only [jsStartsWith] at h
    simp [listIsPrefixOf] at h
  | cons c cs2 => simp [jsTruthyStr, List.isEmpty]

/-! ## Claim theorems -/

/-- Claim C1: for every request whose path is classified protected, a
transient session-reader outcome — the provider call failing
(`transientErr`) or throwing (`throws`) — makes the middleware emit a
redirect response, never a pass-through. -/
theorem protected_transient_fail_closed (p : String) (r : ReaderOutcome)
    (hp : isProtectedRoute p = true) (ht : readerTransient r = true) :
    ∃ u, middleware p r = Response.redirect u := by
  have ha := protected_not_auth p hp
  cases r with
  | user => simp [readerTransient] at ht
  | noUser => simp [readerTransient] at ht
  | transientErr =>
    exact ⟨loginRedirectUrl p, by simp [middleware, ha, hp, readerUser, readerError]⟩
  | throws =>
    exact ⟨"/auth/login", by simp [middleware, hp]⟩

/-- Witness for C1: the concrete protected path `/dashboard` with a failed
provider call is redirected. -/
theorem protected_transient_fail_closed_witness :
    isProtectedRoute "/dashboard" = true ∧
    readerTransient ReaderOutcome.transientErr = true ∧
    ∃ u, middleware "/dashboard" ReaderOutcome.transientErr = Response.redirect u :=
  ⟨by decide, by decide,
    protected_transient_fail_closed "/dashboard" ReaderOutcome.transientErr
      (by decide) (by decide)⟩

/-- Claim C2, counterexample: when the session reader throws (so no valid
session subject is resolved) on the protected path `/dashboard`, the catch
block of the middleware redirects to the bare `/auth/login` without the
`redirectTo` return target, contradicting the claim that every such redirect
carries the originally requested path. -/
theorem protected_throw_redirect_loses_return_path :
    middleware "/dashboard" ReaderOutcome.throws = Response.redirect "/auth/login" ∧
    Response.redirect "/auth/login" ≠
      Response.redirect "/auth/login?redirectTo=%2Fdashboard" := by
  constructor
  · decide
  · decide

/-- Claim C2 as amended: for every protected path, when the session reader
returns normally without a subject (no credentials, or a failed provider
call), the middleware redirects to the sign-in path carrying the originally
requested path, URL-encoded, as the `redirectTo` return target; only a
thrown reader exception loses the return target. -/
theorem protected_no_subject_redirect_with_return_path (p : String)
    (r : ReaderOutcome) (hp : isProtectedRoute p = true)
    (hr : r = ReaderOutcome.noUser ∨ r = ReaderOutcome.transientErr) :
    middleware p r = Response.redirect (loginRedirectUrl p) := by
  have ha := protected_not_auth p hp
  rcases hr with h | h <;> subst h <;>
    simp [middleware, ha, hp, readerUser, readerError]

/-- Witness for the amended C2: an unauthenticated GET on `/dashboard`
redirects to `/auth/login?redirectTo=%2Fdashboard`. -/
theorem protected_no_subject_redirect_with_return_path_witness :
    isProtectedRoute "/dashboard" = true ∧
    middleware "/dashboard" ReaderOutcome.noUser =
      Response.redirect "/auth/login?redirectTo=%2Fdashboard" := by
  refine ⟨by decide, ?_⟩
  rw [protected_no_subject_redirect_with_return_path "/dashboard"
    ReaderOutcome.noUser (by decide) (Or.inl rfl)]
  decide

/-- Claim C4: for every request whose path is classified auth-entry (under
`/auth/`), a transient session-reader outcome — the provider unreachable or
an exception thrown during resolution — makes the middleware return a
pass-through response, so the auth page stays reachable (fail-open). -/
theorem auth_entry_transient_fail_open (p : String)
    (hA : isAuthRoute p = true) :
    middleware p ReaderOutcome.transientErr = Response.next ∧
    middleware p ReaderOutcome.throws = Response.next := by
  have hP := auth_not_protected p hA
  constructor
  · simp [middleware, hA, readerUser]
  · simp [middleware, hP]

/-- Witness for C4: the concrete auth path `/auth/login` passes through
under both transient outcomes. -/
theorem auth_entry_transient_fail_open_witness :
    isAuthRoute "/auth/login" = true ∧
    middleware "/auth/login" ReaderOutcome.transientErr = Response.next ∧
    middleware "/auth/login" ReaderOutcome.throws = Response.next :=
  ⟨by decide,
    (auth_entry_transient_fail_open "/auth/login" (by decide)).1,
    (auth_entry_transient_fail_open "/auth/login" (by decide)).2⟩

/-- Claim C5: for every request whose path is classified auth-entry, a valid
session subject makes the primary middleware redirect to the authenticated
landing path `/dashboard`, never pass through; the secondary middleware of
`apps/web` likewise redirects a session-cookie-carrying GET on `/auth/login`
to `/dashboard`, whatever response its session-update step produced. -/
theorem auth_entry_authenticated_redirects :
    (∀ p : String, isAuthRoute p = true →
      middleware p ReaderOutcome.user = Response.redirect "/dashboard") ∧
    (∀ resp : Response,
      Web.middleware "/auth/login" true resp = Response.redirect "/dashboard") := by
  constructor
  · intro p hA
    simp [middleware, hA, readerUser]
  · intro resp
    rfl

/-- Witness for C5: an authenticated GET on `/auth/login` is redirected to
`/dashboard` by both middlewares. -/
theorem auth_entry_authenticated_redirects_witness :
    isAuthRoute "/auth/login" = true ∧
    middleware "/auth/login" ReaderOutcome.user = Response.redirect "/dashboard" ∧
    Web.middleware "/auth/login" true Response.next = Response.redirect "/dashboard" :=
  ⟨by decide,
    auth_entry_authenticated_redirects.1 "/auth/login" (by decide),
    auth_entry_authenticated_redirects.2 Response.next⟩

/-- Claim C7: the request gate is total — for every path and every reader
outcome, including a thrown exception, it returns a response (pass-through
or redirect); and the thrown-exception default is the fail-closed redirect
to `/auth/login` exactly on protected paths and pass-through otherwise. -/
theorem request_gate_total (p : String) (r : ReaderOutcome) :
    (middleware p r = Response.next ∨ ∃ u, middleware p r = Response.redirect u) ∧
    middleware p ReaderOutcome.throws =
      (if isProtectedRoute p then Response.redirect "/auth/login" else Response.next) := by
  constructor
  · cases h : middleware p r with
    | next => exact Or.inl rfl
    | redirect u => exact Or.inr ⟨u, rfl⟩
  · rfl

/-- Claim C9, counterexample: the path `/foo` belongs to none of the three
classifications, so the union of the three sets does not cover the path
space and "exactly one classification holds" fails. -/
theorem classification_not_total_counterexample :
    isAuthRoute "/foo" = false ∧ isProtectedRoute "/foo" = false ∧
    isPublicRoute "/foo" = false := by
  refine ⟨by decide, by decide, by decide⟩

/-- Claim C9 as amended: the three classifications are pairwise disjoint —
at most one holds for any path — but they do not cover the path space;
a path in none of the three falls to the middleware's explicit default
rule, which passes the request through. -/
theorem classification_disjoint_default_allow (p : String) (r : ReaderOutcome) :
    (isAuthRoute p && isProtectedRoute p) = false ∧
    (isAuthRoute p && isPublicRoute p) = false ∧
    (isProtectedRoute p && isPublicRoute p) = false ∧
    (isAuthRoute p = false → isProtectedRoute p = false → isPublicRoute p = false →
      middleware p r = Response.next) := by
  refine ⟨?_, ?_, ?_, ?_⟩
  · cases hA : isAuthRoute p with
    | false => rfl
    | true => rw [auth_not_protected p hA]; rfl
  · cases hPub : isPublicRoute p with
    | false => simp
    | true => rw [public_not_auth p hPub]; rfl
  · cases hPub : isPublicRoute p with
    | false => simp
    | true => rw [public_not_protected p hPub]; rfl
  · intro h1 h2 h3
    cases r <;> simp [middleware, h1, h2, h3]

/-- Witness for the amended C9: the unclassified path `/foo` satisfies the
disjointness conjuncts and is passed through by the default rule. -/
theorem classification_disjoint_default_allow_witness :
    (isAuthRoute "/foo" && isProtectedRoute "/foo") = false ∧
    middleware "/foo" ReaderOutcome.noUser = Response.next :=
  ⟨(classification_disjoint_default_allow "/foo" ReaderOutcome.noUser).1,
    (classification_disjoint_default_allow "/foo" ReaderOutcome.noUser).2.2.2
      (by decide) (by decide) (by decide)⟩

/-- Claim C3, counterexample: the validator does return
`/dashboard/settings` unchanged, but the user does not land on it after
successful sign-in — no sign-in path consumes the validated value, and
`loginAction` redirects every successful sign-in to `/dashboard`, which is
not `/dashboard/settings`. -/
theorem return_path_round_trip_counterexample :
    middlewareUtils.getRedirectDestination (some (some "/dashboard/settings")) =
      "/dashboard/settings" ∧
    Web.loginAction "user@example.com" "Abc12345" ProviderCall.ok =
      ActionResult.redirect "/dashboard" ∧
    ("/dashboard" : String) ≠ "/dashboard/settings" := by
  refine ⟨by decide, by decide, by decide⟩

/-- Claim C3 as amended: `getRedirectDestination` returns the supplied
`redirectTo` value exactly when it is a same-origin absolute path (starts
with `/` but not `//`) and otherwise — including for `//evil.example.com`
and `http://evil.example.com` — replaces it with the default landing path
`/dashboard`, with `/dashboard/settings` returned unchanged; the sign-in
handler, however, does not consume the value: every successful sign-in
through `loginAction` redirects to `/dashboard`. -/
theorem redirect_destination_validation :
    (∀ rt : String, jsStartsWith rt "/" = true → jsStartsWith rt "//" = false →
      middlewareUtils.getRedirectDestination (some (some rt)) = rt) ∧
    (∀ rt : String, jsStartsWith rt "/" = false ∨ jsStartsWith rt "//" = true →
      middlewareUtils.getRedirectDestination (some (some rt)) = "/dashboard") ∧
    middlewareUtils.getRedirectDestination (some (some "//evil.example.com")) =
      "/dashboard" ∧
    middlewareUtils.getRedirectDestination (some (some "http://evil.example.com")) =
      "/dashboard" ∧
    middlewareUtils.getRedirectDestination (some (some "/dashboard/settings")) =
      "/dashboard/settings" ∧
    (∀ email password : String, loginSchemaValid email password = true →
      Web.loginAction email password ProviderCall.ok =
        ActionResult.redirect "/dashboard") := by
  refine ⟨?_, ?_, by decide, by decide, by decide, ?_⟩
  · intro rt h1 h2
    simp [middlewareUtils.getRedirectDestination, truthy_of_slash h1, h1, h2]
  · intro rt h
    rcases h with h | h <;> simp [middlewareUtils.getRedirectDestination, h]
  · intro email password h
    simp [Web.loginAction, h]

/-- Witness for the amended C3: the valid return path `/dashboard/settings`
is returned unchanged, yet a successful sign-in lands on `/dashboard`. -/
theorem redirect_destination_validation_witness :
    jsStartsWith "/dashboard/settings" "/" = true ∧
    middlewareUtils.getRedirectDestination (some (some "/dashboard/settings")) =
      "/dashboard/settings" ∧
    Web.loginAction "user@example.com" "Abc12345" ProviderCall.ok =
      ActionResult.redirect "/dashboard" :=
  ⟨by decide,
    redirect_destination_validation.1 "/dashboard/settings" (by decide) (by decide),
    redirect_destination_validation.2.2.2.2.2 "user@example.com" "Abc12345" (by decide)⟩

/-- Claim C6, counterexample: when the provider reports an error during
sign-out, the server action `signOutAction` of `apps/web` returns
`{ error: message }` to its caller — the `SignOutButton` shows it as an
error toast — instead of completing without surfacing an error. -/
theorem sign_out_error_surfaced_counterexample :
    Web.signOutAction (ProviderCall.err "Auth session missing") =
      ActionResult.errorMsg "Auth session missing" ∧
    ActionResult.errorMsg "Auth session missing" ≠ ActionResult.redirect "/" := by
  refine ⟨by decide, by decide⟩

/-- Claim C6 as amended: the client-side sign-out never fails from the
caller's perspective — the client `SupabaseAuthService.signOut` surfaces no
error for any provider outcome, and the `use-auth` hook's sign-out always
clears the user and session state and navigates home, so calling it twice in
a row both times ends in the no-session state; the server-side
`signOutAction` of `apps/web`, however, surfaces the provider's error
message when the provider reports one, and redirects to `/` only on
success. -/
theorem sign_out_client_never_fails :
    (∀ prov : ProviderCall, WebApp.clientSignOutError prov = none) ∧
    (∀ (st : WebApp.AuthState) (prov : ProviderCall),
      (WebApp.useAuthSignOut st prov).1.user = false ∧
      (WebApp.useAuthSignOut st prov).1.session = false ∧
      (WebApp.useAuthSignOut st prov).2 = "/") ∧
    (∀ (st : WebApp.AuthState) (p1 p2 : ProviderCall),
      (WebApp.useAuthSignOut (WebApp.useAuthSignOut st p1).1 p2).1.user = false ∧
      (WebApp.useAuthSignOut (WebApp.useAuthSignOut st p1).1 p2).1.session = false) ∧
    (∀ m : String, Web.signOutAction (ProviderCall.err m) = ActionResult.errorMsg m) ∧
    Web.signOutAction ProviderCall.ok = ActionResult.redirect "/" := by
  refine ⟨?_, ?_, ?_, ?_, rfl⟩
  · intro prov; cases prov <;> rfl
  · intro st prov; cases prov <;> exact ⟨rfl, rfl, rfl⟩
  · intro st p1 p2; cases p1 <;> cases p2 <;> exact ⟨rfl, rfl⟩
  · intro m; rfl

/-- Claim C8: each auth action handler validates the input shape first; on
any input whose shape fails validation it returns its validation-error
payload, and the result does not depend on the provider at all — no
provider operation is performed before validation succeeds. -/
theorem validation_precedes_provider :
    (∀ (email password : String) (prov : ProviderCall),
      loginSchemaValid email password = false →
      Web.loginAction email password prov = ActionResult.errorMsg "Invalid form data") ∧
    (∀ (email password : String) (prov : ProviderCall),
      registerSchemaValid email password = false →
      Web.registerAction email password prov = ActionResult.errorMsg "Invalid form data") ∧
    (∀ (password confirmPassword : String) (prov : ProviderCall),
      resetPasswordSchemaValid password confirmPassword = false →
      Web.resetPasswordAction password confirmPassword prov =
        ActionResult.errorMsg "Invalid password data") := by
  refine ⟨?_, ?_, ?_⟩
  · intro email password prov h; simp [Web.loginAction, h]
  · intro email password prov h; simp [Web.registerAction, h]
  · intro password confirmPassword prov h; simp [Web.resetPasswordAction, h]

/-- Witness for C8: an empty password, a malformed email, and a too-short
reset password each produce the validation error, with the provider outcome
held at success to show it is never consulted. -/
theorem validation_precedes_provider_witness :
    loginSchemaValid "user@example.com" "" = false ∧
    Web.loginAction "user@example.com" "" ProviderCall.ok =
      ActionResult.errorMsg "Invalid form data" ∧
    registerSchemaValid "not-an-email" "Abc12345" = false ∧
    Web.registerAction "not-an-email" "Abc12345" ProviderCall.ok =
      ActionResult.errorMsg "Invalid form data" ∧
    resetPasswordSchemaValid "abc" "abc" = false ∧
    Web.resetPasswordAction "abc" "abc" ProviderCall.ok =
      ActionResult.errorMsg "Invalid password data" :=
  ⟨by decide,
    validation_precedes_provider.1 "user@example.com" "" ProviderCall.ok (by decide),
    by decide,
    validation_precedes_provider.2.1 "not-an-email" "Abc12345" ProviderCall.ok (by decide),
    by decide,
    validation_precedes_provider.2.2 "abc" "abc" ProviderCall.ok (by decide)⟩

/-- Claim C10, counterexample: for a session whose `expires_at` timestamp is
absent the two expiry predicates disagree — the middleware helper reports
expired (`true`) while the session-manager helper reports not expired
(`false`). -/
theorem session_expiry_predicates_disagree :
    middlewareUtils.isSessionExpired (some ⟨none⟩) 0 = true ∧
    SupabaseSessionManager.isSessionExpired ⟨none⟩ 0 = false ∧
    (true : Bool) ≠ false := by
  refine ⟨by decide, by decide, by decide⟩

/-- Claim C10 as amended: the two expiry predicates agree — applying the
same 5-minute buffer — for every session whose `expires_at` is present and
non-zero; they disagree when `expires_at` is absent (or the falsy `0`),
where the middleware helper returns `true` and the session-manager helper
returns `false`. -/
theorem session_expiry_agree_when_present (e : Nat) (now : Int) (he : e ≠ 0) :
    middlewareUtils.isSessionExpired (some ⟨some e⟩) now =
      SupabaseSessionManager.isSessionExpired ⟨some e⟩ now := by
  simp [middlewareUtils.isSessionExpired, SupabaseSessionManager.isSessionExpired, he]

/-- Witness for the amended C10: the two predicates agree at a concrete
present timestamp. -/
theorem session_expiry_agree_when_present_witness :
    (1 : Nat) ≠ 0 ∧
    middlewareUtils.isSessionExpired (some ⟨some 1⟩) 0 =
      SupabaseSessionManager.isSessionExpired ⟨some 1⟩ 0 :=
  ⟨by decide, session_expiry_agree_when_present 1 0 (by decide)⟩

end OpenWorkouts
